import Mathlib

/-!
Verification of the relationship-graph and family-permission logic of the
Zhupani family-tree server.  The definitions below are a shallow embedding of
the Express route handlers (relationships router, families router, persons
router) and of the MySQL schema in `database/setup.ts`.  Tables are modelled as
lists of rows, SQL joins as list comprehensions, `ORDER BY` as a merge sort on
the MySQL comparison key (MySQL sorts `NULL` before all values in ascending
order), and each handler as a function from the database state and the
authenticated actor to an `Except` result.
-/

namespace Zhupani

deriving instance DecidableEq for Except

/-- The `relationship_type` ENUM of the relationships table. -/
inductive RelationshipType
  | parent_child
  | spouse
  | sibling
  deriving DecidableEq

/-- The `relationship_subtype` ENUM of the relationships table. -/
inductive RelationshipSubtype
  | mother
  | father
  | husband
  | wife
  | ex_husband
  | ex_wife
  | brother
  | sister
  deriving DecidableEq

/-- The `permission_level` ENUM of the user_family_permissions table. -/
inductive PermissionLevel
  | view
  | edit
  | admin
  deriving DecidableEq

/-- The `role` ENUM of the users table. -/
inductive UserRole
  | admin
  | family_member
  | visitor
  deriving DecidableEq

/-- Row of the persons table.  Only the columns the modelled route logic reads
are carried: `id`, `first_name` (an `ORDER BY` key), `birth_date` (an
`ORDER BY` key, nullable), and `family_id` (drives permission checks).  The
remaining columns (last_name, gender, ...) ride along in `SELECT p.*` but never
influence the modelled queries.  Dates are modelled as day numbers. -/
structure Person where
  id : Nat
  first_name : String
  birth_date : Option Nat
  family_id : Option Nat
  deriving DecidableEq

/-- Row of the relationships table.  The surrogate `id`, timestamps and the
`is_active` flag are omitted: no modelled query reads them. -/
structure Relationship where
  person1_id : Nat
  person2_id : Nat
  relationship_type : RelationshipType
  relationship_subtype : RelationshipSubtype
  marriage_date : Option Nat
  divorce_date : Option Nat
  deriving DecidableEq

/-- Row of the user_family_permissions table. -/
structure UserFamilyPermission where
  user_id : Nat
  family_id : Nat
  permission_level : PermissionLevel
  deriving DecidableEq

/-- Row of the families table (the columns the modelled logic reads). -/
structure Family where
  id : Nat
  is_public : Bool
  deriving DecidableEq

/-- The mutable store the relationship routes operate on. -/
structure DB where
  persons : List Person
  relationships : List Relationship
  deriving DecidableEq

/-- Body of POST /api/relationships, after Joi shape validation (the
`createRelationshipSchema`): both ids are numbers, the type and the subtype
each belong to their full ENUM set, dates are optional.  Note the Joi schema
validates the type and the subtype independently and does not constrain the
subtype by the type. -/
structure CreateRelationshipRequest where
  person1_id : Nat
  person2_id : Nat
  relationship_type : RelationshipType
  relationship_subtype : RelationshipSubtype
  marriage_date : Option Nat
  divorce_date : Option Nat
  deriving DecidableEq

/-- Error outcomes of the modelled handlers, in the specification's taxonomy.
`NotFound` models `createNotFoundError`; `Forbidden` models
`createForbiddenError`; `DuplicateRelationship` models the
`createValidationError` raised with the message `This relationship already
exists`; `InvalidSubtype` models the `createValidationError` raised for a
subtype outside the set allowed for the type; `ValidationError` models the
remaining shape validation failures; `Internal` models a state in which the
JavaScript handler would crash on an undefined person row (unreachable when
person ids are unique, as the primary key guarantees). -/
inductive ApiError
  | NotFound
  | Forbidden
  | DuplicateRelationship
  | InvalidSubtype
  | ValidationError
  | Internal
  deriving DecidableEq

/-! ## Family Permission Resolver (families router) -/

/-- The `permissionLevels` object of `checkFamilyPermission`:
view 1, edit 2, admin 3. -/
def permissionLevels : PermissionLevel → Nat
  | PermissionLevel.view => 1
  | PermissionLevel.edit => 2
  | PermissionLevel.admin => 3

/-- The rows returned by
`SELECT permission_level FROM user_family_permissions WHERE user_id = ? AND family_id = ?`. -/
def grantRows (grants : List UserFamilyPermission) (userId familyId : Nat) :
    List UserFamilyPermission :=
  grants.filter (fun g => decide (g.user_id = userId ∧ g.family_id = familyId))

/-- Embedding of `checkFamilyPermission` (families router): look up the grant
rows for the (user, family) pair; with no row return false; otherwise compare
the first row's numeric level against the required numeric level. -/
def checkFamilyPermission (grants : List UserFamilyPermission)
    (userId familyId : Nat) (requiredLevel : PermissionLevel) : Bool :=
  match grantRows grants userId familyId with
  | [] => false
  | g :: _ => decide (permissionLevels g.permission_level ≥ permissionLevels requiredLevel)

/-- The authorization decision every route handler implements around
`checkFamilyPermission`: each call site is guarded by
`if (req.user.role !== 'admin')`, so a global admin is authorized
unconditionally and every other role defers to the grant lookup.  This is the
specification's `hasPermission(actorId, actorRole, familyId, requiredLevel)`
operation, assembled from the caller pattern of the families, persons and
relationships routers. -/
def hasPermission (actorRole : UserRole) (grants : List UserFamilyPermission)
    (actorId familyId : Nat) (requiredLevel : PermissionLevel) : Bool :=
  decide (actorRole = UserRole.admin) ||
    checkFamilyPermission grants actorId familyId requiredLevel

/-- The combined read check of GET /api/families/:id for a non-admin caller:
the handler raises Forbidden only when the grant check fails and the family is
not public, so view access is granted when either holds. -/
def familyViewAllowed (grants : List UserFamilyPermission) (userId : Nat)
    (family : Family) : Bool :=
  checkFamilyPermission grants userId family.id PermissionLevel.view || family.is_public

/-! ## MySQL ordering keys -/

/-- Codepoints of a string: the comparison key for a text column
(collation modelled as codepoint order). -/
def strCodes (s : String) : List Nat :=
  s.data.map Char.toNat

/-- Lexicographic comparison of flattened sort keys. -/
def codesLe : List Nat → List Nat → Bool
  | [], _ => true
  | _ :: _, [] => false
  | a :: as, b :: bs => if a = b then codesLe as bs else decide (a < b)

/-- MySQL ascending sort key of a nullable numeric column: MySQL places NULL
before every non-null value in ascending order, so NULL maps to the strictly
smallest key. -/
def nullKey : Option Nat → List Nat
  | none => [0]
  | some d => [1, d]

/-- Sort key of `ORDER BY p.birth_date, p.first_name` (children and siblings
queries of the persons router). -/
def birthNameKey (p : Person) : List Nat :=
  nullKey p.birth_date ++ strCodes p.first_name

/-- Sort key of `ORDER BY r.relationship_subtype = 'father' DESC, p.first_name`
(parents query): a father edge sorts before every other edge. -/
def parentsKey (x : Person × Relationship) : List Nat :=
  (if x.2.relationship_subtype = RelationshipSubtype.father then 0 else 1) ::
    strCodes x.1.first_name

/-- Sort key of `ORDER BY r.marriage_date, p.first_name` (spouses query). -/
def spousesKey (x : Person × Relationship) : List Nat :=
  nullKey x.2.marriage_date ++ strCodes x.1.first_name

/-! ## Relationship Graph Engine: derived views (persons router, GET /:id) -/

/-- Join rows of the parents query:
`persons p INNER JOIN relationships r ON p.id = r.person1_id
WHERE r.person2_id = personId AND r.relationship_type = 'parent_child'`. -/
def parentsRows (db : DB) (personId : Nat) : List (Person × Relationship) :=
  db.persons.flatMap (fun p =>
    db.relationships.filterMap (fun r =>
      if p.id = r.person1_id ∧ r.person2_id = personId ∧
          r.relationship_type = RelationshipType.parent_child
      then some (p, r) else none))

/-- `deriveParents`: the parents query, ordered father-subtype edges first and
then by first name, projected to the person columns (`SELECT p.*`). -/
def deriveParents (db : DB) (personId : Nat) : List Person :=
  (((parentsRows db personId).insertionSort
    (fun x y => codesLe (parentsKey x) (parentsKey y) = true)).map Prod.fst)

/-- Join rows of the children query:
`persons p INNER JOIN relationships r ON p.id = r.person2_id
WHERE r.person1_id = personId AND r.relationship_type = 'parent_child'`. -/
def childrenRows (db : DB) (personId : Nat) : List (Person × Relationship) :=
  db.persons.flatMap (fun p =>
    db.relationships.filterMap (fun r =>
      if p.id = r.person2_id ∧ r.person1_id = personId ∧
          r.relationship_type = RelationshipType.parent_child
      then some (p, r) else none))

/-- `deriveChildren`: the children query, ordered by
`ORDER BY p.birth_date, p.first_name` under MySQL semantics (NULL birth dates
sort first), projected to the person columns. -/
def deriveChildren (db : DB) (personId : Nat) : List Person :=
  (((childrenRows db personId).insertionSort
    (fun x y => codesLe (birthNameKey x.1) (birthNameKey y.1) = true)).map Prod.fst)

/-- Join rows of the spouses query:
`persons p INNER JOIN relationships r ON (p.id = r.person1_id OR p.id = r.person2_id)
WHERE (r.person1_id = personId OR r.person2_id = personId)
AND r.relationship_type = 'spouse' AND p.id != personId`. -/
def spousesRows (db : DB) (personId : Nat) : List (Person × Relationship) :=
  db.persons.flatMap (fun p =>
    db.relationships.filterMap (fun r =>
      if (p.id = r.person1_id ∨ p.id = r.person2_id) ∧
          (r.person1_id = personId ∨ r.person2_id = personId) ∧
          r.relationship_type = RelationshipType.spouse ∧ p.id ≠ personId
      then some (p, r) else none))

/-- `deriveSpouses`: the spouses query, ordered by marriage date then first
name, projected to the person columns. -/
def deriveSpouses (db : DB) (personId : Nat) : List Person :=
  (((spousesRows db personId).insertionSort
    (fun x y => codesLe (spousesKey x) (spousesKey y) = true)).map Prod.fst)

/-- Join rows of the siblings query:
`persons p INNER JOIN relationships r1 ON p.id = r1.person2_id
INNER JOIN relationships r2 ON r1.person1_id = r2.person1_id
WHERE r2.person2_id = personId AND r1.relationship_type = 'parent_child'
AND r2.relationship_type = 'parent_child' AND p.id != personId`,
projected to the person columns (`SELECT DISTINCT p.*`, dedup applied in
`deriveSiblings`). -/
def siblingsRows (db : DB) (personId : Nat) : List Person :=
  db.persons.flatMap (fun p =>
    db.relationships.flatMap (fun r1 =>
      db.relationships.filterMap (fun r2 =>
        if p.id = r1.person2_id ∧ r1.person1_id = r2.person1_id ∧
            r2.person2_id = personId ∧
            r1.relationship_type = RelationshipType.parent_child ∧
            r2.relationship_type = RelationshipType.parent_child ∧
            p.id ≠ personId
        then some p else none)))

/-- `deriveSiblings`: the siblings query; `SELECT DISTINCT` removes duplicate
person rows and `ORDER BY p.birth_date, p.first_name` sorts the result. -/
def deriveSiblings (db : DB) (personId : Nat) : List Person :=
  ((siblingsRows db personId).dedup).insertionSort
    (fun x y => codesLe (birthNameKey x) (birthNameKey y) = true)

/-- Edge-level parenthood: some stored parent_child edge points from the
person id `q` (the parent) to the person id `c` (the child). -/
def isParentOf (db : DB) (q c : Nat) : Prop :=
  ∃ r ∈ db.relationships,
    r.person1_id = q ∧ r.person2_id = c ∧
      r.relationship_type = RelationshipType.parent_child

/-! ## Relationship Graph Engine: edge creation (relationships router) -/

/-- The `Validate relationship logic` block of POST /api/relationships:
parent_child requires mother or father, spouse requires husband, wife,
ex_husband or ex_wife, sibling requires brother or sister. -/
def relationshipLogicValid (t : RelationshipType) (s : RelationshipSubtype) : Bool :=
  match t with
  | RelationshipType.parent_child =>
      decide (s = RelationshipSubtype.mother ∨ s = RelationshipSubtype.father)
  | RelationshipType.spouse =>
      decide (s = RelationshipSubtype.husband ∨ s = RelationshipSubtype.wife ∨
        s = RelationshipSubtype.ex_husband ∨ s = RelationshipSubtype.ex_wife)
  | RelationshipType.sibling =>
      decide (s = RelationshipSubtype.brother ∨ s = RelationshipSubtype.sister)

/-- The rows of `SELECT id, family_id FROM persons WHERE id IN (?, ?)` for the
two endpoint ids of a request; the handler demands exactly two rows. -/
def matchedPersons (db : DB) (id1 id2 : Nat) : List Person :=
  db.persons.filter (fun p => decide (p.id = id1 ∨ p.id = id2))

/-- The per-endpoint permission requirement of the create, update and delete
handlers: a person attached to a family requires edit access to that family; a
person without a family imposes no requirement. -/
def editDenied (grants : List UserFamilyPermission) (actorId : Nat) (p : Person) : Bool :=
  match p.family_id with
  | some fid => ! checkFamilyPermission grants actorId fid PermissionLevel.edit
  | none => false

/-- The duplicate lookup shared by the single and the bulk create path:
`SELECT * FROM relationships WHERE person1_id = ? AND person2_id = ? AND
relationship_type = ?` — an ordered match on the (person1, person2, type)
triple. -/
def existingRelationships (db : DB) (req : CreateRelationshipRequest) :
    List Relationship :=
  db.relationships.filter (fun r =>
    decide (r.person1_id = req.person1_id ∧ r.person2_id = req.person2_id ∧
      r.relationship_type = req.relationship_type))

/-- The row the INSERT statement of the create handlers stores. -/
def insertedRow (req : CreateRelationshipRequest) : Relationship :=
  { person1_id := req.person1_id
    person2_id := req.person2_id
    relationship_type := req.relationship_type
    relationship_subtype := req.relationship_subtype
    marriage_date := req.marriage_date
    divorce_date := req.divorce_date }

/-- The steps of POST /api/relationships that follow the permission block: the
ordered duplicate check, the subtype-against-type validation, then the
insert. -/
def createEdgeChecks (db : DB) (req : CreateRelationshipRequest) :
    Except ApiError (DB × Relationship) :=
  if (existingRelationships db req).length > 0 then
    Except.error ApiError.DuplicateRelationship
  else if ! relationshipLogicValid req.relationship_type req.relationship_subtype then
    Except.error ApiError.InvalidSubtype
  else
    Except.ok ({ db with relationships := db.relationships ++ [insertedRow req] },
      insertedRow req)

/-- Embedding of POST /api/relationships (single create), in source order:
endpoint existence (exactly two rows for the id pair, else NotFound), then —
only for a non-admin actor — the lookup of the two endpoint rows and the
per-family edit permission check (an actor whose endpoint lookup fails would
crash the JavaScript handler, modelled as `Internal`), then the duplicate
check, the subtype validation and the insert. -/
def createEdge (db : DB) (grants : List UserFamilyPermission) (actorId : Nat)
    (actorRole : UserRole) (req : CreateRelationshipRequest) :
    Except ApiError (DB × Relationship) :=
  if (matchedPersons db req.person1_id req.person2_id).length ≠ 2 then
    Except.error ApiError.NotFound
  else if actorRole = UserRole.admin then createEdgeChecks db req
  else
    match (matchedPersons db req.person1_id req.person2_id).find?
          (fun p => decide (p.id = req.person1_id)),
        (matchedPersons db req.person1_id req.person2_id).find?
          (fun p => decide (p.id = req.person2_id)) with
    | some person1, some person2 =>
      if editDenied grants actorId person1 ∨ editDenied grants actorId person2 then
        Except.error ApiError.Forbidden
      else createEdgeChecks db req
    | _, _ => Except.error ApiError.Internal

/-- The distinct endpoint ids of a bulk request:
`[...new Set(relationships.flatMap(r => [r.person1_id, r.person2_id]))]`. -/
def bulkPersonIds (reqs : List CreateRelationshipRequest) : List Nat :=
  (reqs.flatMap (fun r => [r.person1_id, r.person2_id])).dedup

/-- The rows of `SELECT id, family_id FROM persons WHERE id IN (...)` for the
distinct endpoint ids of a bulk request. -/
def bulkPersons (db : DB) (reqs : List CreateRelationshipRequest) : List Person :=
  db.persons.filter (fun p => decide (p.id ∈ bulkPersonIds reqs))

/-- The sequential insert loop of POST /api/relationships/bulk: each item is
checked against the current store with the ordered duplicate lookup; a
duplicate is skipped silently, a non-duplicate is inserted and collected.  No
subtype-against-type validation happens in this loop. -/
def bulkInsert (db : DB) : List CreateRelationshipRequest → DB × List Relationship
  | [] => (db, [])
  | req :: rest =>
    if (existingRelationships db req).length = 0 then
      ((bulkInsert { db with relationships := db.relationships ++ [insertedRow req] } rest).1,
        insertedRow req ::
          (bulkInsert { db with relationships := db.relationships ++ [insertedRow req] } rest).2)
    else
      bulkInsert db rest

/-- The response body of POST /api/relationships/bulk: the created rows and a
message reporting how many were created.  The response carries no skipped or
duplicate count. -/
structure BulkResponse where
  relationships : List Relationship
  message : String
  deriving DecidableEq

/-- Embedding of POST /api/relationships/bulk: reject an empty batch, check the
existence of all distinct endpoint persons once up front (NotFound if any is
missing), check edit permission for every fetched person unless the actor is a
global admin, then run the sequential insert loop.  The per-item Joi validation
of the source checks only field shapes (type and subtype against their full
ENUM sets, independently), which the typed request already guarantees, so no
per-item subtype-against-type check occurs. -/
def createBulkEdges (db : DB) (grants : List UserFamilyPermission) (actorId : Nat)
    (actorRole : UserRole) (reqs : List CreateRelationshipRequest) :
    Except ApiError (DB × BulkResponse) :=
  if reqs.isEmpty then Except.error ApiError.ValidationError
  else if (bulkPersons db reqs).length ≠ (bulkPersonIds reqs).length then
    Except.error ApiError.NotFound
  else if actorRole ≠ UserRole.admin ∧ (bulkPersons db reqs).any (editDenied grants actorId) then
    Except.error ApiError.Forbidden
  else
    Except.ok ((bulkInsert db reqs).1,
      { relationships := (bulkInsert db reqs).2
        message := "Created " ++ toString (bulkInsert db reqs).2.length ++
          " new relationships" })

/-- The uniqueness constraint `UNIQUE KEY unique_relationship
(person1_id, person2_id, relationship_type)` of the relationships table: at
most one stored edge per ordered (person1, person2, type) triple. -/
def UniqueOrderedTriples (db : DB) : Prop :=
  (db.relationships.map
    (fun r => (r.person1_id, r.person2_id, r.relationship_type))).Nodup

/-- Modelled from the spec's ordering words for `deriveChildren` ("by birth
date ascending (nulls last), then first name"): the claimed ascending key
places a NULL birth date after every non-null value.  This definition follows
the specification's words, to be compared with the MySQL ordering the code
produces. -/
def nullsLastKey : Option Nat → List Nat
  | none => [1]
  | some d => [0, d]

/-- The ordering the specification claims for `deriveChildren`: birth date
ascending with nulls last, ties broken by first name. -/
def specChildrenLe (p q : Person) : Bool :=
  codesLe (nullsLastKey p.birth_date ++ strCodes p.first_name)
    (nullsLastKey q.birth_date ++ strCodes q.first_name)

/-! ## Helper lemmas -/

theorem codesLe_total : ∀ a b : List Nat, (codesLe a b || codesLe b a) = true := by
  intro a
  induction a with
  | nil => intro b; simp [codesLe]
  | cons x xs ih =>
    intro b
    cases b with
    | nil => simp [codesLe]
    | cons y ys =>
      by_cases h : x = y
      · subst h
        simpa [codesLe] using ih ys
      · have h' : ¬ y = x := fun hc => h hc.symm
        simp only [codesLe, if_neg h, if_neg h', Bool.or_eq_true, decide_eq_true_eq]
        omega

theorem codesLe_trans : ∀ a b c : List Nat,
    codesLe a b = true → codesLe b c = true → codesLe a c = true := by
  intro a
  induction a with
  | nil => intro b c h1 h2; simp [codesLe]
  | cons x xs ih =>
    intro b c h1 h2
    cases b with
    | nil => simp [codesLe] at h1
    | cons y ys =>
      cases c with
      | nil => simp [codesLe] at h2
      | cons z zs =>
        by_cases hxy : x = y <;> by_cases hyz : y = z
        · subst hxy; subst hyz
          simp only [codesLe, if_pos rfl] at h1 h2 ⊢
          exact ih ys zs h1 h2
        · subst hxy
          simp only [codesLe, if_pos rfl, if_neg hyz, decide_eq_true_eq] at h1 h2 ⊢
          exact h2
        · subst hyz
          simp only [codesLe, if_pos rfl, if_neg hxy, decide_eq_true_eq] at h1 h2 ⊢
          exact h1
        · simp only [codesLe, if_neg hxy, if_neg hyz, decide_eq_true_eq] at h1 h2
          have hxz : ¬ x = z := by omega
          simp only [codesLe, if_neg hxz, decide_eq_true_eq]
          omega

theorem mem_parentsRows {db : DB} {personId : Nat} {x : Person × Relationship} :
    x ∈ parentsRows db personId ↔
      x.1 ∈ db.persons ∧ x.2 ∈ db.relationships ∧ x.1.id = x.2.person1_id ∧
        x.2.person2_id = personId ∧
        x.2.relationship_type = RelationshipType.parent_child := by
  simp only [parentsRows, List.mem_flatMap, List.mem_filterMap,
    Option.ite_none_right_eq_some, Option.some.injEq]
  constructor
  · rintro ⟨p, hp, r, hr, ⟨h1, h2, h3⟩, rfl⟩
    exact ⟨hp, hr, h1, h2, h3⟩
  · rintro ⟨hp, hr, h1, h2, h3⟩
    exact ⟨x.1, hp, x.2, hr, ⟨h1, h2, h3⟩, rfl⟩

theorem mem_childrenRows {db : DB} {personId : Nat} {x : Person × Relationship} :
    x ∈ childrenRows db personId ↔
      x.1 ∈ db.persons ∧ x.2 ∈ db.relationships ∧ x.1.id = x.2.person2_id ∧
        x.2.person1_id = personId ∧
        x.2.relationship_type = RelationshipType.parent_child := by
  simp only [childrenRows, List.mem_flatMap, List.mem_filterMap,
    Option.ite_none_right_eq_some, Option.some.injEq]
  constructor
  · rintro ⟨p, hp, r, hr, ⟨h1, h2, h3⟩, rfl⟩
    exact ⟨hp, hr, h1, h2, h3⟩
  · rintro ⟨hp, hr, h1, h2, h3⟩
    exact ⟨x.1, hp, x.2, hr, ⟨h1, h2, h3⟩, rfl⟩

theorem mem_spousesRows {db : DB} {personId : Nat} {x : Person × Relationship} :
    x ∈ spousesRows db personId ↔
      x.1 ∈ db.persons ∧ x.2 ∈ db.relationships ∧
        (x.1.id = x.2.person1_id ∨ x.1.id = x.2.person2_id) ∧
        (x.2.person1_id = personId ∨ x.2.person2_id = personId) ∧
        x.2.relationship_type = RelationshipType.spouse ∧ x.1.id ≠ personId := by
  simp only [spousesRows, List.mem_flatMap, List.mem_filterMap,
    Option.ite_none_right_eq_some, Option.some.injEq]
  constructor
  · rintro ⟨p, hp, r, hr, ⟨h1, h2, h3, h4⟩, rfl⟩
    exact ⟨hp, hr, h1, h2, h3, h4⟩
  · rintro ⟨hp, hr, h1, h2, h3, h4⟩
    exact ⟨x.1, hp, x.2, hr, ⟨h1, h2, h3, h4⟩, rfl⟩

theorem mem_siblingsRows {db : DB} {personId : Nat} {p : Person} :
    p ∈ siblingsRows db personId ↔
      p ∈ db.persons ∧ p.id ≠ personId ∧
        ∃ r1 ∈ db.relationships, ∃ r2 ∈ db.relationships,
          p.id = r1.person2_id ∧ r1.person1_id = r2.person1_id ∧
            r2.person2_id = personId ∧
            r1.relationship_type = RelationshipType.parent_child ∧
            r2.relationship_type = RelationshipType.parent_child := by
  simp only [siblingsRows, List.mem_flatMap, List.mem_filterMap,
    Option.ite_none_right_eq_some, Option.some.injEq]
  constructor
  · rintro ⟨q, hq, r1, hr1, r2, hr2, ⟨h1, h2, h3, h4, h5, h6⟩, rfl⟩
    exact ⟨hq, h6, r1, hr1, r2, hr2, h1, h2, h3, h4, h5⟩
  · rintro ⟨hq, h6, r1, hr1, r2, hr2, h1, h2, h3, h4, h5⟩
    exact ⟨p, hq, r1, hr1, r2, hr2, ⟨h1, h2, h3, h4, h5, h6⟩, rfl⟩

theorem mem_deriveParents {db : DB} {personId : Nat} {q : Person} :
    q ∈ deriveParents db personId ↔ ∃ r, (q, r) ∈ parentsRows db personId := by
  simp only [deriveParents, List.mem_map]
  constructor
  · rintro ⟨x, hx, rfl⟩
    exact ⟨x.2, (List.perm_insertionSort _ _).mem_iff.mp hx⟩
  · rintro ⟨r, hr⟩
    exact ⟨(q, r), (List.perm_insertionSort _ _).mem_iff.mpr hr, rfl⟩

theorem mem_deriveChildren {db : DB} {personId : Nat} {q : Person} :
    q ∈ deriveChildren db personId ↔ ∃ r, (q, r) ∈ childrenRows db personId := by
  simp only [deriveChildren, List.mem_map]
  constructor
  · rintro ⟨x, hx, rfl⟩
    exact ⟨x.2, (List.perm_insertionSort _ _).mem_iff.mp hx⟩
  · rintro ⟨r, hr⟩
    exact ⟨(q, r), (List.perm_insertionSort _ _).mem_iff.mpr hr, rfl⟩

theorem mem_deriveSpouses {db : DB} {personId : Nat} {q : Person} :
    q ∈ deriveSpouses db personId ↔ ∃ r, (q, r) ∈ spousesRows db personId := by
  simp only [deriveSpouses, List.mem_map]
  constructor
  · rintro ⟨x, hx, rfl⟩
    exact ⟨x.2, (List.perm_insertionSort _ _).mem_iff.mp hx⟩
  · rintro ⟨r, hr⟩
    exact ⟨(q, r), (List.perm_insertionSort _ _).mem_iff.mpr hr, rfl⟩

theorem mem_deriveSiblings {db : DB} {personId : Nat} {p : Person} :
    p ∈ deriveSiblings db personId ↔ p ∈ siblingsRows db personId := by
  rw [deriveSiblings]
  rw [(List.perm_insertionSort _ _).mem_iff]
  exact List.mem_dedup

theorem count_deriveSiblings (db : DB) (personId : Nat) (p : Person) :
    (deriveSiblings db personId).count p =
      if p ∈ siblingsRows db personId then 1 else 0 := by
  rw [deriveSiblings]
  rw [(List.perm_insertionSort _ _).count_eq]
  exact List.count_dedup _ _

theorem matchedPersons_id {db : DB} {i1 i2 : Nat} {p : Person}
    (hp : p ∈ matchedPersons db i1 i2) : p ∈ db.persons ∧ (p.id = i1 ∨ p.id = i2) := by
  simpa [matchedPersons, List.mem_filter] using hp

theorem createEdgeChecks_ok {db : DB} {req : CreateRelationshipRequest} {db' : DB}
    {row : Relationship} (h : createEdgeChecks db req = Except.ok (db', row)) :
    db'.persons = db.persons ∧
      db'.relationships = db.relationships ++ [insertedRow req] ∧
      row = insertedRow req ∧ existingRelationships db req = [] ∧
      relationshipLogicValid req.relationship_type req.relationship_subtype = true := by
  unfold createEdgeChecks at h
  split at h
  · exact (Except.noConfusion h)
  · split at h
    · exact (Except.noConfusion h)
    · rename_i hdup hsub
      simp only [Except.ok.injEq, Prod.mk.injEq] at h
      obtain ⟨h1, h2⟩ := h
      have hnil : existingRelationships db req = [] := by
        simp only [gt_iff_lt, not_lt, Nat.le_zero] at hdup
        exact List.eq_nil_of_length_eq_zero hdup
      have hvalid :
          relationshipLogicValid req.relationship_type req.relationship_subtype = true := by
        simpa using hsub
      refine ⟨?_, ?_, h2.symm, hnil, hvalid⟩
      · rw [← h1]
      · rw [← h1]

theorem createEdge_ok {db : DB} {grants : List UserFamilyPermission} {actorId : Nat}
    {actorRole : UserRole} {req : CreateRelationshipRequest} {db' : DB} {row : Relationship}
    (h : createEdge db grants actorId actorRole req = Except.ok (db', row)) :
    db'.persons = db.persons ∧
      db'.relationships = db.relationships ++ [insertedRow req] ∧
      row = insertedRow req ∧ existingRelationships db req = [] ∧
      relationshipLogicValid req.relationship_type req.relationship_subtype = true := by
  unfold createEdge at h
  split at h
  · exact (Except.noConfusion h)
  · split at h
    · exact createEdgeChecks_ok h
    · split at h
      · split at h
        · exact (Except.noConfusion h)
        · exact createEdgeChecks_ok h
      · exact (Except.noConfusion h)

theorem bulk_message_one (r : Relationship) :
    "Created " ++ toString ([r] : List Relationship).length ++ " new relationships" =
      "Created 1 new relationships" := by
  have h : ([r] : List Relationship).length = 1 := rfl
  rw [h]
  rfl

/-! ## Claims -/

/-- Claim C2: the authorization decision authorizes a global admin
unconditionally, even with no grant row; for any other role it is false when no
grant row exists for the (actor, family) pair, and with a grant row it is true
exactly when the granted level is at least the required level under the total
order view(1) < edit(2) < admin(3); in particular an edit grant authorizes
required view and edit but not required admin. -/
theorem hasPermission_spec (grants : List UserFamilyPermission) (actorId familyId : Nat) :
    (∀ requiredLevel,
      hasPermission UserRole.admin grants actorId familyId requiredLevel = true) ∧
    (∀ actorRole requiredLevel, actorRole ≠ UserRole.admin →
      grantRows grants actorId familyId = [] →
      hasPermission actorRole grants actorId familyId requiredLevel = false) ∧
    (∀ actorRole requiredLevel g rest, actorRole ≠ UserRole.admin →
      grantRows grants actorId familyId = g :: rest →
      (hasPermission actorRole grants actorId familyId requiredLevel = true ↔
        permissionLevels g.permission_level ≥ permissionLevels requiredLevel)) ∧
    (∀ actorRole g rest, actorRole ≠ UserRole.admin →
      grantRows grants actorId familyId = g :: rest →
      g.permission_level = PermissionLevel.edit →
      hasPermission actorRole grants actorId familyId PermissionLevel.view = true ∧
        hasPermission actorRole grants actorId familyId PermissionLevel.edit = true ∧
        hasPermission actorRole grants actorId familyId PermissionLevel.admin = false) := by
  refine ⟨?_, ?_, ?_, ?_⟩
  · intro requiredLevel
    simp [hasPermission]
  · intro actorRole requiredLevel hrole hnone
    simp [hasPermission, checkFamilyPermission, hnone, hrole]
  · intro actorRole requiredLevel g rest hrole hcons
    simp [hasPermission, checkFamilyPermission, hcons, hrole]
  · intro actorRole g rest hrole hcons hedit
    simp [hasPermission, checkFamilyPermission, hcons, hrole, hedit, permissionLevels]

/-- Claim C2 witness: a family_member actor with an edit grant on family 2 is
authorized for view and edit but not admin. -/
theorem hasPermission_spec_witness :
    hasPermission UserRole.family_member [⟨1, 2, PermissionLevel.edit⟩] 1 2
        PermissionLevel.view = true ∧
      hasPermission UserRole.family_member [⟨1, 2, PermissionLevel.edit⟩] 1 2
        PermissionLevel.edit = true ∧
      hasPermission UserRole.family_member [⟨1, 2, PermissionLevel.edit⟩] 1 2
        PermissionLevel.admin = false :=
  (hasPermission_spec [⟨1, 2, PermissionLevel.edit⟩] 1 2).2.2.2 UserRole.family_member
    ⟨1, 2, PermissionLevel.edit⟩ [] (by decide) (by decide) rfl

/-- Claim C5: for a user holding no grant on a public family, the resolver
returns false for view (it never consults is_public), while the caller's
combined check of GET /api/families/:id grants view access through the
is_public disjunct; the two decisions are separate computations. -/
theorem resolver_ignores_publicity (grants : List UserFamilyPermission) (userId : Nat)
    (family : Family) (hnone : grantRows grants userId family.id = [])
    (hpub : family.is_public = true) :
    hasPermission UserRole.family_member grants userId family.id PermissionLevel.view = false ∧
      familyViewAllowed grants userId family = true := by
  constructor
  · simp [hasPermission, checkFamilyPermission, hnone]
  · simp [familyViewAllowed, hpub]

/-- Claim C5 witness: user 7 has no grant on public family 3. -/
theorem resolver_ignores_publicity_witness :
    hasPermission UserRole.family_member [] 7 3 PermissionLevel.view = false ∧
      familyViewAllowed [] 7 ⟨3, true⟩ = true :=
  resolver_ignores_publicity [] 7 ⟨3, true⟩ (by decide) rfl

/-- Claim C8: children and parents derivation are inverse-consistent: for
person rows P and C of the store, C is among the derived children of P exactly
when P is among the derived parents of C, both views being drawn from the same
parent_child edges with the parent as person1 and the child as person2. -/
theorem children_parents_inverse (db : DB) (P C : Person)
    (hP : P ∈ db.persons) (hC : C ∈ db.persons) :
    C ∈ deriveChildren db P.id ↔ P ∈ deriveParents db C.id := by
  rw [mem_deriveChildren, mem_deriveParents]
  constructor
  · rintro ⟨r, hr⟩
    rw [mem_childrenRows] at hr
    obtain ⟨-, hrel, hid, hp1, htype⟩ := hr
    exact ⟨r, mem_parentsRows.mpr ⟨hP, hrel, hp1.symm, hid.symm, htype⟩⟩
  · rintro ⟨r, hr⟩
    rw [mem_parentsRows] at hr
    obtain ⟨-, hrel, hid, hp2, htype⟩ := hr
    exact ⟨r, mem_childrenRows.mpr ⟨hC, hrel, hp2.symm, hid.symm, htype⟩⟩

/-- Example store for the claim C8 witness: parent 1, child 2, one
parent_child edge. -/
def exDB8 : DB :=
  { persons := [⟨1, "P", none, none⟩, ⟨2, "C", none, none⟩]
    relationships := [⟨1, 2, RelationshipType.parent_child, RelationshipSubtype.mother,
      none, none⟩] }

/-- Claim C8 witness: on `exDB8`, child 2 is derived from parent 1 exactly when
parent 1 is derived from child 2. -/
theorem children_parents_inverse_witness :
    (⟨2, "C", none, none⟩ : Person) ∈ deriveChildren exDB8 1 ↔
      (⟨1, "P", none, none⟩ : Person) ∈ deriveParents exDB8 2 :=
  children_parents_inverse exDB8 ⟨1, "P", none, none⟩ ⟨2, "C", none, none⟩
    (by decide) (by decide)

/-- Claim C10: a self-loop request (both endpoint ids equal) always fails
NotFound in the single-create path when person ids are unique (as the primary
key guarantees), even though the referenced person exists: the existence check
demands two matching rows and the filter for one repeated id can never return
two. -/
theorem createEdge_self_loop_not_found (db : DB) (grants : List UserFamilyPermission)
    (actorId : Nat) (actorRole : UserRole) (a : Nat) (t : RelationshipType)
    (st : RelationshipSubtype) (md dd : Option Nat)
    (hN : (db.persons.map Person.id).Nodup)
    (_hex : ∃ p ∈ db.persons, p.id = a) :
    createEdge db grants actorId actorRole ⟨a, a, t, st, md, dd⟩ =
      Except.error ApiError.NotFound := by
  have hne2 : (matchedPersons db a a).length ≠ 2 := by
    intro h2
    obtain ⟨x, y, hxy⟩ := List.length_eq_two.mp h2
    have hx : x ∈ matchedPersons db a a := by
      rw [hxy]; exact List.mem_cons_self _ _
    have hy : y ∈ matchedPersons db a a := by
      rw [hxy]; exact List.mem_cons_of_mem _ (List.mem_cons_self _ _)
    have hxa : x.id = a := by rcases (matchedPersons_id hx).2 with h | h <;> exact h
    have hya : y.id = a := by rcases (matchedPersons_id hy).2 with h | h <;> exact h
    have hsub : (matchedPersons db a a).Sublist db.persons := by
      unfold matchedPersons; exact List.filter_sublist _
    have hmap : ((matchedPersons db a a).map Person.id).Nodup := (hsub.map Person.id).nodup hN
    rw [hxy] at hmap
    simp only [List.map_cons, List.map_nil, List.nodup_cons, List.mem_cons,
      List.not_mem_nil, or_false, List.mem_singleton] at hmap
    exact hmap.1 (hxa.trans hya.symm)
  unfold createEdge
  rw [if_pos hne2]

/-- Claim C10 witness: person 1 exists alone; a (1,1) spouse request fails
NotFound. -/
theorem createEdge_self_loop_not_found_witness :
    createEdge ⟨[⟨1, "A", none, none⟩], []⟩ [] 9 UserRole.family_member
        ⟨1, 1, RelationshipType.spouse, RelationshipSubtype.husband, none, none⟩ =
      Except.error ApiError.NotFound :=
  createEdge_self_loop_not_found ⟨[⟨1, "A", none, none⟩], []⟩ [] 9 UserRole.family_member 1
    RelationshipType.spouse RelationshipSubtype.husband none none (by decide)
    ⟨⟨1, "A", none, none⟩, by decide, rfl⟩

/-- Claim C7: after a successful spouse-edge creation between distinct persons
a and b — whichever storage direction the edge was submitted in — each person
appears in the other's derived spouses: the spouse lookup matches edges in
both directions. -/
theorem spouses_bidirectional (db : DB) (grants : List UserFamilyPermission)
    (actorId : Nat) (actorRole : UserRole) (a b : Nat) (pa pb : Person)
    (md dd : Option Nat) (db' : DB) (row : Relationship)
    (hpa : pa ∈ db.persons) (hpb : pb ∈ db.persons)
    (hida : pa.id = a) (hidb : pb.id = b) (hab : a ≠ b)
    (h : createEdge db grants actorId actorRole
          ⟨a, b, RelationshipType.spouse, RelationshipSubtype.husband, md, dd⟩ =
            Except.ok (db', row) ∨
        createEdge db grants actorId actorRole
          ⟨b, a, RelationshipType.spouse, RelationshipSubtype.husband, md, dd⟩ =
            Except.ok (db', row)) :
    pb ∈ deriveSpouses db' a ∧ pa ∈ deriveSpouses db' b := by
  rcases h with h | h
  · obtain ⟨hpers, hrels, -, -, -⟩ := createEdge_ok h
    have hrow : insertedRow
        ⟨a, b, RelationshipType.spouse, RelationshipSubtype.husband, md, dd⟩ ∈
          db'.relationships := by
      rw [hrels]; simp
    constructor
    · rw [mem_deriveSpouses]
      refine ⟨_, mem_spousesRows.mpr ⟨?_, hrow, ?_, ?_, ?_, ?_⟩⟩
      · rw [hpers]; exact hpb
      · exact Or.inr hidb
      · exact Or.inl rfl
      · rfl
      · rw [hidb]; exact Ne.symm hab
    · rw [mem_deriveSpouses]
      refine ⟨_, mem_spousesRows.mpr ⟨?_, hrow, ?_, ?_, ?_, ?_⟩⟩
      · rw [hpers]; exact hpa
      · exact Or.inl hida
      · exact Or.inr rfl
      · rfl
      · rw [hida]; exact hab
  · obtain ⟨hpers, hrels, -, -, -⟩ := createEdge_ok h
    have hrow : insertedRow
        ⟨b, a, RelationshipType.spouse, RelationshipSubtype.husband, md, dd⟩ ∈
          db'.relationships := by
      rw [hrels]; simp
    constructor
    · rw [mem_deriveSpouses]
      refine ⟨_, mem_spousesRows.mpr ⟨?_, hrow, ?_, ?_, ?_, ?_⟩⟩
      · rw [hpers]; exact hpb
      · exact Or.inl hidb
      · exact Or.inr rfl
      · rfl
      · rw [hidb]; exact Ne.symm hab
    · rw [mem_deriveSpouses]
      refine ⟨_, mem_spousesRows.mpr ⟨?_, hrow, ?_, ?_, ?_, ?_⟩⟩
      · rw [hpers]; exact hpa
      · exact Or.inr hida
      · exact Or.inl rfl
      · rfl
      · rw [hida]; exact hab

/-- Claim C7 witness: creating the spouse edge (1,2,husband) over a two-person
store makes each of 1 and 2 a derived spouse of the other. -/
theorem spouses_bidirectional_witness :
    (⟨2, "B", none, none⟩ : Person) ∈ deriveSpouses
        ⟨[⟨1, "A", none, none⟩, ⟨2, "B", none, none⟩],
          [⟨1, 2, RelationshipType.spouse, RelationshipSubtype.husband, none, none⟩]⟩ 1 ∧
      (⟨1, "A", none, none⟩ : Person) ∈ deriveSpouses
        ⟨[⟨1, "A", none, none⟩, ⟨2, "B", none, none⟩],
          [⟨1, 2, RelationshipType.spouse, RelationshipSubtype.husband, none, none⟩]⟩ 2 :=
  spouses_bidirectional ⟨[⟨1, "A", none, none⟩, ⟨2, "B", none, none⟩], []⟩ [] 9
    UserRole.admin 1 2 ⟨1, "A", none, none⟩ ⟨2, "B", none, none⟩ none none
    ⟨[⟨1, "A", none, none⟩, ⟨2, "B", none, none⟩],
      [⟨1, 2, RelationshipType.spouse, RelationshipSubtype.husband, none, none⟩]⟩
    ⟨1, 2, RelationshipType.spouse, RelationshipSubtype.husband, none, none⟩
    (by decide) (by decide) rfl rfl (by decide) (Or.inl (by decide))

/-- Claim C6: over any edge set, for distinct person rows of the store, one
appears in the derived siblings of the other exactly once precisely when some
common parent exists (a person id with a parent_child edge to each); a person
never appears among its own siblings; and membership is symmetric. -/
theorem siblings_spec (db : DB) (pa pb : Person)
    (hpa : pa ∈ db.persons) (hpb : pb ∈ db.persons) (hne : pa.id ≠ pb.id) :
    ((deriveSiblings db pa.id).count pb = 1 ↔
      ∃ q, isParentOf db q pa.id ∧ isParentOf db q pb.id) ∧
    (pb ∈ deriveSiblings db pa.id ↔ pa ∈ deriveSiblings db pb.id) ∧
    (∀ p ∈ deriveSiblings db pa.id, p.id ≠ pa.id) := by
  have hmem : pb ∈ siblingsRows db pa.id ↔
      ∃ q, isParentOf db q pa.id ∧ isParentOf db q pb.id := by
    rw [mem_siblingsRows]
    constructor
    · rintro ⟨-, -, r1, hr1, r2, hr2, h1, h2, h3, h4, h5⟩
      exact ⟨r1.person1_id, ⟨r2, hr2, h2.symm, h3, h5⟩, ⟨r1, hr1, rfl, h1.symm, h4⟩⟩
    · rintro ⟨q, ⟨r2, hr2, hq2, hc2, ht2⟩, ⟨r1, hr1, hq1, hc1, ht1⟩⟩
      refine ⟨hpb, fun hc => hne hc.symm, r1, hr1, r2, hr2, hc1.symm, ?_, hc2, ht1, ht2⟩
      rw [hq1, hq2]
  refine ⟨?_, ?_, ?_⟩
  · rw [count_deriveSiblings]
    constructor
    · intro h
      by_cases hm : pb ∈ siblingsRows db pa.id
      · exact hmem.mp hm
      · rw [if_neg hm] at h
        exact absurd h (by decide)
    · intro h
      rw [if_pos (hmem.mpr h)]
  · rw [mem_deriveSiblings, mem_deriveSiblings, mem_siblingsRows, mem_siblingsRows]
    constructor
    · rintro ⟨-, -, r1, hr1, r2, hr2, h1, h2, h3, h4, h5⟩
      exact ⟨hpa, hne, r2, hr2, r1, hr1, h3.symm, h2.symm, h1.symm, h5, h4⟩
    · rintro ⟨-, -, r1, hr1, r2, hr2, h1, h2, h3, h4, h5⟩
      exact ⟨hpb, fun hc => hne hc.symm, r2, hr2, r1, hr1, h3.symm, h2.symm, h1.symm, h5, h4⟩
  · intro p hp
    exact (mem_siblingsRows.mp (mem_deriveSiblings.mp hp)).2.1

/-- Example store for the claim C6 witness: persons 1 and 2 share the two
common parents 3 and 4 (four parent_child edges). -/
def exDB6 : DB :=
  { persons := [⟨1, "A", none, none⟩, ⟨2, "B", none, none⟩,
      ⟨3, "M", none, none⟩, ⟨4, "F", none, none⟩]
    relationships := [
      ⟨3, 1, RelationshipType.parent_child, RelationshipSubtype.mother, none, none⟩,
      ⟨3, 2, RelationshipType.parent_child, RelationshipSubtype.mother, none, none⟩,
      ⟨4, 1, RelationshipType.parent_child, RelationshipSubtype.father, none, none⟩,
      ⟨4, 2, RelationshipType.parent_child, RelationshipSubtype.father, none, none⟩] }

/-- Claim C6 witness: on `exDB6`, person 2 appears exactly once among the
siblings of person 1 despite two shared parents, membership is symmetric, and
person 1 never appears among its own siblings. -/
theorem siblings_spec_witness :
    (((deriveSiblings exDB6 1).count ⟨2, "B", none, none⟩ = 1) ↔
      ∃ q, isParentOf exDB6 q 1 ∧ isParentOf exDB6 q 2) ∧
    ((⟨2, "B", none, none⟩ : Person) ∈ deriveSiblings exDB6 1 ↔
      (⟨1, "A", none, none⟩ : Person) ∈ deriveSiblings exDB6 2) ∧
    (∀ p ∈ deriveSiblings exDB6 1, p.id ≠ 1) :=
  siblings_spec exDB6 ⟨1, "A", none, none⟩ ⟨2, "B", none, none⟩
    (by decide) (by decide) (by decide)

/-- Claim C9 (amended): the derived children are exactly the person rows with
a parent_child edge from the queried person, and the list is sorted by birth
date ascending with NULL birth dates placed first (MySQL sorts NULL first in
ascending order), ties broken by first name ascending. -/
theorem children_sorted_mysql (db : DB) (personId : Nat) :
    (∀ c, c ∈ deriveChildren db personId ↔
      c ∈ db.persons ∧ ∃ r ∈ db.relationships, r.person1_id = personId ∧
        r.person2_id = c.id ∧ r.relationship_type = RelationshipType.parent_child) ∧
    List.Pairwise (fun p q => codesLe (birthNameKey p) (birthNameKey q) = true)
      (deriveChildren db personId) := by
  constructor
  · intro c
    rw [mem_deriveChildren]
    constructor
    · rintro ⟨r, hr⟩
      rw [mem_childrenRows] at hr
      obtain ⟨hc, hrel, hid, hp1, htype⟩ := hr
      exact ⟨hc, r, hrel, hp1, hid.symm, htype⟩
    · rintro ⟨hc, r, hrel, hp1, hid, htype⟩
      exact ⟨r, mem_childrenRows.mpr ⟨hc, hrel, hid.symm, hp1, htype⟩⟩
  · have inst1 : IsTotal (Person × Relationship)
        (fun x y => codesLe (birthNameKey x.1) (birthNameKey y.1) = true) := by
      constructor
      intro x y
      have h := codesLe_total (birthNameKey x.1) (birthNameKey y.1)
      simp only [Bool.or_eq_true] at h
      exact h
    have inst2 : IsTrans (Person × Relationship)
        (fun x y => codesLe (birthNameKey x.1) (birthNameKey y.1) = true) := by
      constructor
      intro x y z hxy hyz
      exact codesLe_trans _ _ _ hxy hyz
    have hs := @List.sorted_insertionSort (Person × Relationship)
      (fun x y => codesLe (birthNameKey x.1) (birthNameKey y.1) = true) _ inst1 inst2
      (childrenRows db personId)
    exact List.Pairwise.map Prod.fst (fun x y h => h) hs

/-- Example store for the claim C9 counterexample: parent 1 has a child 2 with
a NULL birth date and a child 3 born on day 10. -/
def exDB9 : DB :=
  { persons := [⟨1, "P", none, none⟩, ⟨2, "Bob", none, none⟩, ⟨3, "Ann", some 10, none⟩]
    relationships := [
      ⟨1, 2, RelationshipType.parent_child, RelationshipSubtype.mother, none, none⟩,
      ⟨1, 3, RelationshipType.parent_child, RelationshipSubtype.mother, none, none⟩] }

/-- Claim C9 counterexample: the derived children of person 1 on `exDB9` are
not ordered with NULL birth dates last — MySQL places the NULL birth date
first, so the claimed nulls-last ordering fails on this store. -/
theorem children_not_nulls_last :
    ¬ List.Pairwise (fun p q => specChildrenLe p q = true) (deriveChildren exDB9 1) := by
  decide

/-- Example store for the claim C1 counterexample and witness: persons 1 and 2
with the stored edge (1,2,parent_child,father). -/
def exDB1 : DB :=
  { persons := [⟨1, "A", none, none⟩, ⟨2, "B", none, none⟩]
    relationships := [⟨1, 2, RelationshipType.parent_child, RelationshipSubtype.father,
      none, none⟩] }

/-- Claim C1 counterexample: with (1,2,parent_child) stored, creating the
reversed pair (2,1,parent_child,father) is not rejected as a duplicate — it
succeeds and inserts a second edge over the same unordered pair and type, so
the duplicate rule is not per unordered triple. -/
theorem duplicate_unordered_cex :
    createEdge exDB1 [] 9 UserRole.admin
        ⟨2, 1, RelationshipType.parent_child, RelationshipSubtype.father, none, none⟩ =
      Except.ok (⟨exDB1.persons, exDB1.relationships ++
          [⟨2, 1, RelationshipType.parent_child, RelationshipSubtype.father, none, none⟩]⟩,
        ⟨2, 1, RelationshipType.parent_child, RelationshipSubtype.father, none, none⟩) := by
  decide

/-- Claim C1 (amended): the duplicate rule is per ordered triple.  When an
edge with the same ordered (person1, person2, type) triple already exists and
both endpoints exist, the single-create path fails DuplicateRelationship; and
a successful create preserves the storage invariant of at most one edge per
ordered triple (the unique_relationship key). -/
theorem duplicate_ordered_triple (db : DB) (grants : List UserFamilyPermission)
    (actorId : Nat) (req : CreateRelationshipRequest)
    (hlen : (matchedPersons db req.person1_id req.person2_id).length = 2) :
    (existingRelationships db req ≠ [] →
      createEdge db grants actorId UserRole.admin req =
        Except.error ApiError.DuplicateRelationship) ∧
    (∀ db' row, UniqueOrderedTriples db →
      createEdge db grants actorId UserRole.admin req = Except.ok (db', row) →
      UniqueOrderedTriples db') := by
  constructor
  · intro hdup
    unfold createEdge
    rw [if_neg (by simp [hlen]), if_pos rfl]
    unfold createEdgeChecks
    rw [if_pos (List.length_pos.mpr hdup)]
  · intro db' row hU h
    obtain ⟨-, hrels, -, hnil, -⟩ := createEdge_ok h
    unfold UniqueOrderedTriples at hU ⊢
    rw [hrels, List.map_append]
    rw [List.nodup_append]
    refine ⟨hU, by simp, ?_⟩
    intro t ht htmem
    simp only [List.map_cons, List.map_nil, List.mem_cons, List.not_mem_nil, or_false] at htmem
    subst htmem
    simp only [List.mem_map] at ht
    obtain ⟨r, hrmem, hrtriple⟩ := ht
    have hpred : r.person1_id = req.person1_id ∧ r.person2_id = req.person2_id ∧
        r.relationship_type = req.relationship_type := by
      have h1 := congrArg Prod.fst hrtriple
      have h2 := congrArg (fun x => x.2.1) hrtriple
      have h3 := congrArg (fun x => x.2.2) hrtriple
      exact ⟨h1, h2, h3⟩
    have : r ∈ existingRelationships db req := by
      unfold existingRelationships
      rw [List.mem_filter]
      exact ⟨hrmem, by simpa using hpred⟩
    rw [hnil] at this
    exact List.not_mem_nil r this

/-- Claim C1 witness: on `exDB1`, re-creating (1,2,parent_child,father) fails
DuplicateRelationship. -/
theorem duplicate_ordered_triple_witness :
    createEdge exDB1 [] 9 UserRole.admin
        ⟨1, 2, RelationshipType.parent_child, RelationshipSubtype.father, none, none⟩ =
      Except.error ApiError.DuplicateRelationship :=
  (duplicate_ordered_triple exDB1 [] 9
      ⟨1, 2, RelationshipType.parent_child, RelationshipSubtype.father, none, none⟩
      (by decide)).1 (by decide)

/-- Example store for the claim C3 counterexample and witness: persons 1 and 2
and no edges. -/
def exDB3 : DB :=
  { persons := [⟨1, "A", none, none⟩, ⟨2, "B", none, none⟩]
    relationships := [] }

/-- Claim C3 counterexample: an edge whose subtype (brother) is outside the
set allowed for its type (parent_child) is not rejected by the bulk path — the
batch succeeds and the inconsistent edge is inserted. -/
theorem bulk_invalid_subtype_cex :
    createBulkEdges exDB3 [] 9 UserRole.admin
        [⟨1, 2, RelationshipType.parent_child, RelationshipSubtype.brother, none, none⟩] =
      Except.ok (⟨exDB3.persons, exDB3.relationships ++
          [⟨1, 2, RelationshipType.parent_child, RelationshipSubtype.brother, none, none⟩]⟩,
        { relationships :=
            [⟨1, 2, RelationshipType.parent_child, RelationshipSubtype.brother, none, none⟩]
          message := "Created 1 new relationships" }) := by
  decide

/-- Claim C3 (amended): subtype-against-type consistency is enforced with
InvalidSubtype only in the single-create path (and there only after the
ordered duplicate check); the bulk path validates items only against the full
subtype ENUM and inserts a type-inconsistent edge whenever it is not a
duplicate. -/
theorem invalid_subtype_paths (db : DB) (grants : List UserFamilyPermission)
    (actorId : Nat) (req : CreateRelationshipRequest)
    (hlen : (matchedPersons db req.person1_id req.person2_id).length = 2)
    (hndup : existingRelationships db req = [])
    (hinvalid : relationshipLogicValid req.relationship_type req.relationship_subtype = false)
    (hne : req.person1_id ≠ req.person2_id) :
    createEdge db grants actorId UserRole.admin req = Except.error ApiError.InvalidSubtype ∧
    createBulkEdges db grants actorId UserRole.admin [req] =
      Except.ok (⟨db.persons, db.relationships ++ [insertedRow req]⟩,
        { relationships := [insertedRow req]
          message := "Created 1 new relationships" }) := by
  have hids : bulkPersonIds [req] = [req.person1_id, req.person2_id] := by
    show ([req.person1_id, req.person2_id] ++ []).dedup = _
    rw [List.append_nil]
    rw [List.dedup_cons_of_not_mem (by simp [hne]), List.dedup_cons_of_not_mem (by simp),
      List.dedup_nil]
  have hpers : bulkPersons db [req] = matchedPersons db req.person1_id req.person2_id := by
    unfold bulkPersons matchedPersons
    apply List.filter_congr
    intro p hp
    rw [hids]
    apply decide_eq_decide.mpr
    simp
  constructor
  · unfold createEdge
    rw [if_neg (by simp [hlen]), if_pos rfl]
    unfold createEdgeChecks
    rw [if_neg (by simp [hndup]), if_pos (by simp [hinvalid])]
  · have hbulk : bulkInsert db [req] =
        ({ db with relationships := db.relationships ++ [insertedRow req] },
          [insertedRow req]) := by
      unfold bulkInsert
      rw [if_pos (by simp [hndup])]
      rfl
    unfold createBulkEdges
    rw [if_neg (by simp), if_neg (by simp [hpers, hids, hlen]), if_neg (by simp), hbulk]
    show Except.ok ({ db with relationships := db.relationships ++ [insertedRow req] },
      ({ relationships := [insertedRow req]
         message := "Created " ++ toString ([insertedRow req] : List Relationship).length ++
           " new relationships" } : BulkResponse)) = _
    rw [bulk_message_one]

/-- Claim C3 witness: on `exDB3`, the single path rejects
(1,2,parent_child,brother) with InvalidSubtype while the bulk path inserts the
same request. -/
theorem invalid_subtype_paths_witness :
    createEdge exDB3 [] 9 UserRole.admin
        ⟨1, 2, RelationshipType.parent_child, RelationshipSubtype.brother, none, none⟩ =
      Except.error ApiError.InvalidSubtype ∧
    createBulkEdges exDB3 [] 9 UserRole.admin
        [⟨1, 2, RelationshipType.parent_child, RelationshipSubtype.brother, none, none⟩] =
      Except.ok (⟨exDB3.persons, exDB3.relationships ++
          [insertedRow ⟨1, 2, RelationshipType.parent_child, RelationshipSubtype.brother,
            none, none⟩]⟩,
        { relationships := [insertedRow ⟨1, 2, RelationshipType.parent_child,
            RelationshipSubtype.brother, none, none⟩]
          message := "Created 1 new relationships" }) :=
  invalid_subtype_paths exDB3 [] 9
    ⟨1, 2, RelationshipType.parent_child, RelationshipSubtype.brother, none, none⟩
    (by decide) (by decide) (by decide) (by decide)

/-- Example store for the claim C4 counterexample and witness: persons 1, 2, 3
with the stored edge A = (1,2,spouse,husband). -/
def exDB4 : DB :=
  { persons := [⟨1, "A", none, none⟩, ⟨2, "B", none, none⟩, ⟨3, "C", none, none⟩]
    relationships := [⟨1, 2, RelationshipType.spouse, RelationshipSubtype.husband,
      none, none⟩] }

/-- Claim C4 counterexample: for the batch [A, A, B] where A duplicates the
stored edge and B is new, the full response is the created list [B] and the
message reporting one created relationship — the result carries no skipped or
duplicate count (in particular no count of 2) anywhere. -/
theorem bulk_no_skipped_count_cex :
    createBulkEdges exDB4 [] 9 UserRole.admin
        [⟨1, 2, RelationshipType.spouse, RelationshipSubtype.husband, none, none⟩,
          ⟨1, 2, RelationshipType.spouse, RelationshipSubtype.husband, none, none⟩,
          ⟨1, 3, RelationshipType.sibling, RelationshipSubtype.sister, none, none⟩] =
      Except.ok (⟨exDB4.persons, exDB4.relationships ++
          [⟨1, 3, RelationshipType.sibling, RelationshipSubtype.sister, none, none⟩]⟩,
        { relationships :=
            [⟨1, 3, RelationshipType.sibling, RelationshipSubtype.sister, none, none⟩]
          message := "Created 1 new relationships" }) := by
  decide

/-- Claim C4 (amended): bulk create processes edges sequentially, silently
skips duplicates with no error, and for [A, A, B] with A duplicating a stored
edge and B new it returns exactly one created row (B) and a message reporting
one created relationship; the response reports no skipped or duplicate
count. -/
theorem bulk_duplicates_skipped (db : DB) (grants : List UserFamilyPermission)
    (actorId : Nat) (A B : CreateRelationshipRequest)
    (hdupA : existingRelationships db A ≠ [])
    (hnewB : existingRelationships db B = [])
    (hexist : (bulkPersons db [A, A, B]).length = (bulkPersonIds [A, A, B]).length) :
    createBulkEdges db grants actorId UserRole.admin [A, A, B] =
      Except.ok (⟨db.persons, db.relationships ++ [insertedRow B]⟩,
        { relationships := [insertedRow B]
          message := "Created 1 new relationships" }) := by
  have hA : ¬ (existingRelationships db A).length = 0 := by
    simpa [List.length_eq_zero] using hdupA
  have hB : (existingRelationships db B).length = 0 := by simp [hnewB]
  have hbulk : bulkInsert db [A, A, B] =
      ({ db with relationships := db.relationships ++ [insertedRow B] }, [insertedRow B]) := by
    simp only [bulkInsert]
    rw [if_neg hA, if_neg hA, if_pos hB]
  unfold createBulkEdges
  rw [if_neg (by simp), if_neg (by simp [hexist]), if_neg (by simp), hbulk]
  show Except.ok ({ db with relationships := db.relationships ++ [insertedRow B] },
    ({ relationships := [insertedRow B]
       message := "Created " ++ toString ([insertedRow B] : List Relationship).length ++
         " new relationships" } : BulkResponse)) = _
  rw [bulk_message_one]

/-- Claim C4 witness: on `exDB4` with A = (1,2,spouse,husband) stored and
B = (1,3,sibling,sister) new, [A, A, B] creates exactly B with no error. -/
theorem bulk_duplicates_skipped_witness :
    createBulkEdges exDB4 [] 9 UserRole.admin
        [⟨1, 2, RelationshipType.spouse, RelationshipSubtype.husband, none, none⟩,
          ⟨1, 2, RelationshipType.spouse, RelationshipSubtype.husband, none, none⟩,
          ⟨1, 3, RelationshipType.sibling, RelationshipSubtype.sister, none, none⟩] =
      Except.ok (⟨exDB4.persons, exDB4.relationships ++
          [insertedRow ⟨1, 3, RelationshipType.sibling, RelationshipSubtype.sister,
            none, none⟩]⟩,
        { relationships := [insertedRow ⟨1, 3, RelationshipType.sibling,
            RelationshipSubtype.sister, none, none⟩]
          message := "Created 1 new relationships" }) :=
  bulk_duplicates_skipped exDB4 [] 9
    ⟨1, 2, RelationshipType.spouse, RelationshipSubtype.husband, none, none⟩
    ⟨1, 3, RelationshipType.sibling, RelationshipSubtype.sister, none, none⟩
    (by decide) (by decide) (by decide)

end Zhupani
